import Mathlib

/-!
Shallow embedding of the HomeRunDerby2.0 batch scripts
(`backend/src/scripts/python/db_utils.py`, `update_stats.py`,
`import_season_stats.py`) together with proofs about the specified
behaviour of the two batch jobs (the Eligibility Importer and the Daily
Aggregator).

Modelling conventions:
* Python `int` is modelled as `Int`, Python strings as `String`, Python
  lists/dicts as Lean lists / insertion-ordered association lists.
* Database reachability is an explicit boolean `conn` passed to every
  `SupabaseDB` method: `conn = false` means the underlying request raises,
  which each method's `try/except` catches, returning the documented
  default value, exactly as written in `db_utils.py`.
* Python exceptions that escape a function are modelled with
  `Except PyErr`.
* The remote stats source is modelled by its data: the daily box-score
  aggregation result is an association list from MLB player id to the
  day's home-run count, and the paginated leaderboard is the list of
  successive pages the endpoint serves (past the end of the data the real
  endpoint serves an empty page, on which the loop's
  `page_count < page_size` test stops; the model therefore stops when the
  page list is exhausted).
-/

/-- Python exception kinds relevant to this code base. -/
inductive PyErr where
  | typeError
  | valueError
  deriving Repr, DecidableEq

/-- Python `str.isdigit()` restricted to ASCII decimal digits (the only
digit form occurring in this repository's identifiers): nonempty and all
characters `0`-`9`. -/
def pyIsDigit (s : String) : Bool :=
  !s.data.isEmpty && s.data.all Char.isDigit

/-- Numeric value of a decimal digit string, accumulator style. -/
def digitsVal (acc : Nat) : List Char → Nat
  | [] => acc
  | c :: cs => digitsVal (acc * 10 + (c.toNat - 48)) cs

/-- Python `int(s)` for unsigned decimal strings (the only form this code
feeds it); `none` models `int` raising `ValueError`.  Signs, whitespace
and underscores are not exercised anywhere in the repository. -/
def pyInt? (s : String) : Option Int :=
  if pyIsDigit s then some (Int.ofNat (digitsVal 0 s.data)) else none

/-- `mlb_id.startswith('mlb-')` on the character list of the string. -/
def charsStartWithMlb : List Char → Bool
  | 'm' :: 'l' :: 'b' :: '-' :: _ => true
  | _ => false

/-- `mlb_id.replace('mlb-', '')`: remove every (non-overlapping,
left-to-right) occurrence of `mlb-`, as Python `str.replace` does. -/
def removeMlbPre : List Char → List Char
  | 'm' :: 'l' :: 'b' :: '-' :: rest => removeMlbPre rest
  | c :: rest => c :: removeMlbPre rest
  | [] => []

/-- Lexicographic comparison of strings by code point — the order Python
(and the database, on ISO `YYYY-MM-DD` strings) uses for `date`. -/
def charListLt : List Char → List Char → Bool
  | [], [] => false
  | [], _ :: _ => true
  | _ :: _, [] => false
  | c :: cs, d :: ds => c < d || (c == d && charListLt cs ds)

def dateLt (a b : String) : Bool :=
  charListLt a.data b.data

/-- A row of the `Player` table (see the columns used by
`db_utils.py` and `import_season_stats.py`). -/
structure PlayerRow where
  id : String
  mlbId : String
  name : String
  teamAbbr : String
  deriving Repr, DecidableEq

/-- A row of the `PlayerStats` daily time-series table
(columns written by `SupabaseDB.upsert_player_stats`). -/
structure PlayerStatsRow where
  playerId : String
  seasonYear : Int
  date : String
  hrsDaily : Int
  hrsTotal : Int
  hrsRegularSeason : Int
  hrsPostseason : Int
  deriving Repr, DecidableEq

/-- A row of the `PlayerSeasonStats` table
(columns written by `import_season_stats.upsert_player_season_stats`). -/
structure PlayerSeasonStatsRow where
  playerId : String
  seasonYear : Int
  hrsTotal : Int
  teamAbbr : String
  deriving Repr, DecidableEq

/-- `SupabaseDB.get_all_players` (db_utils.py lines 51-65): returns every
`Player` row; any exception (in particular an unreachable database) is
caught and the empty list is returned. -/
def get_all_players (conn : Bool) (players : List PlayerRow) : List PlayerRow :=
  if conn then players else []

/-- The effect on the `PlayerStats` table of the conditional upsert with
`on_conflict='playerId,seasonYear,date'` (db_utils.py lines 146-149): if a
row with the same composite key exists it is replaced, otherwise the row
is inserted. -/
def upsertStatsRow (db : List PlayerStatsRow) (row : PlayerStatsRow) :
    List PlayerStatsRow :=
  if db.any (fun r =>
      r.playerId == row.playerId && r.seasonYear == row.seasonYear &&
      r.date == row.date) then
    db.map (fun r =>
      if r.playerId == row.playerId && r.seasonYear == row.seasonYear &&
         r.date == row.date then row else r)
  else db ++ [row]

/-- `SupabaseDB.upsert_player_stats` (db_utils.py lines 100-155).  Note
that `hrs_daily` is a required parameter: of the eight parameters only
`hrs_postseason` has a default.  Any exception raised by the execute call
(e.g. an unreachable database, `conn = false`) is caught and `False` is
returned with the table unchanged. -/
def upsert_player_stats (conn : Bool) (db : List PlayerStatsRow)
    (player_id : String) (season_year : Int) (date : String)
    (hrs_daily hrs_total hrs_regular_season hrs_postseason : Int) :
    List PlayerStatsRow × Bool :=
  if conn then
    (upsertStatsRow db
      { playerId := player_id, seasonYear := season_year, date := date,
        hrsDaily := hrs_daily, hrsTotal := hrs_total,
        hrsRegularSeason := hrs_regular_season,
        hrsPostseason := hrs_postseason }, true)
  else (db, false)

/-- Of two rows, the one with the later `date` (first wins on a tie,
which cannot arise under the table's uniqueness constraint). -/
def laterByDate (a b : PlayerStatsRow) : PlayerStatsRow :=
  if dateLt a.date b.date then b else a

/-- The row selected by `order('date', desc=True).limit(1)` over the rows
of one (player, season): the row with the maximal `date`.  There is no
cutoff at any processing date — the globally most recent row is taken. -/
def latestRow (db : List PlayerStatsRow) (pid : String) (y : Int) :
    Option PlayerStatsRow :=
  (db.filter (fun r => r.playerId == pid && r.seasonYear == y)).foldl
    (fun acc r =>
      match acc with
      | none => some r
      | some a => some (laterByDate a r)) none

/-- `SupabaseDB.get_player_season_total` (db_utils.py lines 181-204):
`hrsTotal` of the most recent `PlayerStats` row of the player and season,
`0` if there is none; any exception (unreachable database) is caught and
`0` is returned. -/
def get_player_season_total (conn : Bool) (db : List PlayerStatsRow)
    (player_id : String) (season_year : Int) : Int :=
  if conn then
    match latestRow db player_id season_year with
    | some r => r.hrsTotal
    | none => 0
  else 0

/-- The per-entry branch of the roster-map construction
(update_stats.py lines 195-204): the numeric lookup key derived from a
stored external identifier; `.ok none` when the entry is silently skipped
(empty string, or a form that is neither `mlb-`-prefixed nor all digits),
`.error .valueError` when `int()` fails on the remainder of a
`mlb-`-prefixed identifier (that exception is not caught anywhere in
`update_player_stats_for_date`). -/
def mlbIdKey (mlbId : String) : Except PyErr (Option Int) :=
  if mlbId.data.isEmpty then .ok none
  else if charsStartWithMlb mlbId.data then
    match pyInt? ⟨removeMlbPre mlbId.data⟩ with
    | some n => .ok (some n)
    | none => .error .valueError
  else if pyIsDigit mlbId then
    match pyInt? mlbId with
    | some n => .ok (some n)
    | none => .error .valueError
  else .ok none

/-- Python dict assignment `mlb_id_to_player[k] = player`: overwrite the
value if the key is present (keeping its position), else append. -/
def insertOverwrite (m : List (Int × PlayerRow)) (k : Int) (v : PlayerRow) :
    List (Int × PlayerRow) :=
  if m.any (fun kv => kv.1 == k) then
    m.map (fun kv => if kv.1 == k then (k, v) else kv)
  else m ++ [(k, v)]

/-- One step of the roster scan building `mlb_id_to_player`
(update_stats.py lines 193-204). -/
def addPlayerToMap (acc : Except PyErr (List (Int × PlayerRow)))
    (p : PlayerRow) : Except PyErr (List (Int × PlayerRow)) :=
  match acc with
  | .error e => .error e
  | .ok m =>
    match mlbIdKey p.mlbId with
    | .error e => .error e
    | .ok none => .ok m
    | .ok (some k) => .ok (insertOverwrite m k p)

/-- The `mlb_id_to_player` construction of
`update_player_stats_for_date` (update_stats.py lines 193-204). -/
def buildMlbIdMap (players : List PlayerRow) :
    Except PyErr (List (Int × PlayerRow)) :=
  players.foldl addPlayerToMap (.ok [])

/-- The `(updated_count, created_count, skipped_count)` triple returned by
`update_player_stats_for_date`. -/
structure Counts where
  updated : Nat
  created : Nat
  skipped : Nat
  deriving Repr, DecidableEq

/-- Parameters of `SupabaseDB.upsert_player_stats` that have no default
value (db_utils.py lines 100-109; only `hrs_postseason` defaults). -/
def upsertPlayerStatsRequiredParams : List String :=
  ["player_id", "season_year", "date", "hrs_daily", "hrs_total",
   "hrs_regular_season"]

/-- The keyword arguments supplied by the call
`self.db.upsert_player_stats(...)` at update_stats.py lines 234-241. -/
def updateStatsUpsertCallKeywords : List String :=
  ["player_id", "season_year", "date", "hrs_total", "hrs_regular_season",
   "hrs_postseason"]

/-- Required parameters the call at update_stats.py lines 234-241 fails
to bind.  Python raises `TypeError` when this is nonempty. -/
def upsertCallMissingParams : List String :=
  upsertPlayerStatsRequiredParams.filter
    (fun p => !(updateStatsUpsertCallKeywords.contains p))

/-- The per-player loop of `update_player_stats_for_date`
(update_stats.py lines 215-253).  An unmapped player is counted as
skipped and processing continues.  For a mapped player the code reads the
current season total and computes `new_total = current_total +
daily_hr_count` (lines 228-231), then evaluates the call
`self.db.upsert_player_stats(player_id=..., season_year=..., date=...,
hrs_total=..., hrs_regular_season=..., hrs_postseason=0)`
(lines 234-241).  The callee's required parameter `hrs_daily`
(db_utils.py line 105) is not among the supplied keywords
(`upsertCallMissingParams = ["hrs_daily"]`), so Python raises
`TypeError` while binding the arguments, before the callee body — and in
particular its `try/except` — ever runs; the loop has no handler, so the
exception aborts the whole batch. -/
def processDaily (conn : Bool) (m : List (Int × PlayerRow))
    (seasonYear : Int) (_dateStr : String) :
    List (Int × Int) → List PlayerStatsRow → Counts →
    Except PyErr (List PlayerStatsRow × Counts)
  | [], db, c => .ok (db, c)
  | (mlbPlayerId, dailyHrCount) :: rest, db, c =>
    match m.lookup mlbPlayerId with
    | none =>
      processDaily conn m seasonYear _dateStr rest db
        { c with skipped := c.skipped + 1 }
    | some player =>
      let _currentTotal := get_player_season_total conn db player.id seasonYear
      let _newTotal := _currentTotal + dailyHrCount
      .error PyErr.typeError

/-- `MLBStatsUpdater.update_player_stats_for_date`
(update_stats.py lines 166-254), with the already-aggregated daily totals
`daily_hrs` (the result of `get_daily_hr_totals`, a pure function of the
remote box scores) supplied as input.  An empty `daily_hrs` returns
`(0, 0, 0)` before any database access. -/
def update_player_stats_for_date (conn : Bool) (players : List PlayerRow)
    (statsDb : List PlayerStatsRow) (seasonYear : Int) (dateStr : String)
    (daily_hrs : List (Int × Int)) :
    Except PyErr (List PlayerStatsRow × Counts) :=
  if daily_hrs.isEmpty then .ok (statsDb, ⟨0, 0, 0⟩)
  else
    match buildMlbIdMap (get_all_players conn players) with
    | .error e => .error e
    | .ok m => processDaily conn m seasonYear dateStr daily_hrs statsDb ⟨0, 0, 0⟩

/-- `MLBStatsUpdater.run` (update_stats.py lines 256-292): the update is
wrapped in `try/except`; any escaping exception is caught and `False` is
returned, otherwise `True`. -/
def updaterRun (conn : Bool) (players : List PlayerRow)
    (statsDb : List PlayerStatsRow) (seasonYear : Int) (dateStr : String)
    (daily_hrs : List (Int × Int)) : Bool :=
  match update_player_stats_for_date conn players statsDb seasonYear dateStr
      daily_hrs with
  | .ok _ => true
  | .error _ => false

/-- `main` of update_stats.py (line 311): `sys.exit(0 if success else 1)`. -/
def mainExitCode (success : Bool) : Nat :=
  if success then 0 else 1

/-- One entry of a leaderboard page: the fields `fetch_season_leaders_paginated`
reads from a `leaders` element (import_season_stats.py lines 88-97), with
the dictionary defaults already applied: `value` is the parsed home-run
total (`int(leader.get('value', 0))`), `personId` is
`str(person.get('id', ''))` (empty when absent), `personName` defaults to
`"Unknown"` and `teamAbbr` to `"FA"`. -/
structure LeaderEntry where
  value : Int
  personId : String
  personName : String
  teamAbbr : String
  deriving Repr, DecidableEq

/-- One page of the paginated leaderboard response: `leagueLeaders` is
absent (`none`) or a list of groups, each with an optional `leaders`
list (import_season_stats.py lines 77-88). -/
structure LeadersPage where
  leagueLeaders : Option (List (Option (List LeaderEntry)))
  deriving Repr

/-- The player dictionary built for a new leaderboard entry
(import_season_stats.py lines 102-108). -/
structure PlayerData where
  mlbId : String
  name : String
  teamAbbr : String
  hrsTotal : Int
  seasonYear : Int
  deriving Repr, DecidableEq

def entryToPlayerData (seasonYear : Int) (e : LeaderEntry) : PlayerData :=
  { mlbId := e.personId, name := e.personName, teamAbbr := e.teamAbbr,
    hrsTotal := e.value, seasonYear := seasonYear }

/-- `min_hr_on_page` starts as `float('inf')` (modelled `none`) and is
lowered by every scanned entry (import_season_stats.py line 90). -/
def optMin (m : Option Int) (v : Int) : Option Int :=
  match m with
  | none => some v
  | some x => some (min x v)

/-- `min_hr_on_page < min_home_runs` — false for `float('inf')`. -/
def optLtInt (m : Option Int) (t : Int) : Bool :=
  match m with
  | none => false
  | some x => decide (x < t)

/-- The loop state while scanning one page: the cross-page `all_players`
dictionary (insertion-ordered), `page_count`, and `min_hr_on_page`. -/
structure PageScan where
  acc : List (String × PlayerData)
  count : Nat
  minHr : Option Int
  deriving Repr

/-- Processing of one leaderboard entry (import_season_stats.py
lines 88-112): `min_hr_on_page` is updated for every entry; entries with
an empty `personId` are otherwise ignored; a first-seen `personId` is
added to `all_players` while a repeated one leaves the stored data
untouched (first occurrence wins, no summation); `page_count` counts
every entry with a nonempty `personId`, repeated or not. -/
def processEntry (seasonYear : Int) (st : PageScan) (e : LeaderEntry) :
    PageScan :=
  let mn := optMin st.minHr e.value
  if e.personId == "" then { st with minHr := mn }
  else
    let acc' :=
      if (st.acc.lookup e.personId).isSome then st.acc
      else st.acc ++ [(e.personId, entryToPlayerData seasonYear e)]
    { acc := acc', count := st.count + 1, minHr := mn }

def processLeaders (seasonYear : Int) (st : PageScan)
    (es : List LeaderEntry) : PageScan :=
  es.foldl (processEntry seasonYear) st

/-- Scan of all groups of one page (import_season_stats.py lines 84-112);
a group without a `leaders` key is skipped. -/
def processGroups (seasonYear : Int) (acc : List (String × PlayerData))
    (groups : List (Option (List LeaderEntry))) : PageScan :=
  groups.foldl
    (fun st g =>
      match g with
      | none => st
      | some es => processLeaders seasonYear st es)
    { acc := acc, count := 0, minHr := none }

/-- The `while True` pagination loop of `fetch_season_leaders_paginated`
(import_season_stats.py lines 60-127), returning the final `all_players`
dictionary and the final value of `offset` (which is advanced by the page
size 100 only when another page is fetched).  A page whose response lacks
`leagueLeaders` breaks immediately; after merging a page the loop breaks
when `page_count < 100` or when `min_hr_on_page` is below the threshold;
otherwise the next page is fetched. -/
def fetchLoop (minHrs seasonYear : Int) :
    List LeadersPage → List (String × PlayerData) → Nat →
    List (String × PlayerData) × Nat
  | [], acc, off => (acc, off)
  | page :: rest, acc, off =>
    match page.leagueLeaders with
    | none => (acc, off)
    | some groups =>
      let st := processGroups seasonYear acc groups
      if st.count < 100 then (st.acc, off)
      else if optLtInt st.minHr minHrs then (st.acc, off)
      else fetchLoop minHrs seasonYear rest st.acc (off + 100)

/-- Insertion into a list kept descending by `hrsTotal`. -/
def insertByHrs (x : PlayerData) : List PlayerData → List PlayerData
  | [] => [x]
  | y :: ys => if y.hrsTotal < x.hrsTotal then x :: y :: ys else y :: insertByHrs x ys

/-- `eligible_players.sort(key=lambda x: x['hrsTotal'], reverse=True)`
(import_season_stats.py line 134): a stable descending sort by
`hrsTotal` (left-to-right insertion keeps equal keys in input order). -/
def sortByHrsDesc (l : List PlayerData) : List PlayerData :=
  l.foldl (fun acc x => insertByHrs x acc) []

/-- `fetch_season_leaders_paginated` (import_season_stats.py
lines 35-149): run the pagination loop, keep the dictionary values with
`hrsTotal >= min_home_runs`, and sort descending by `hrsTotal`. -/
def fetch_season_leaders_paginated (seasonYear minHrs : Int)
    (pages : List LeadersPage) : List PlayerData :=
  let r := fetchLoop minHrs seasonYear pages [] 0
  sortByHrsDesc ((r.1.map Prod.snd).filter (fun p => decide (minHrs ≤ p.hrsTotal)))

/-- The result counters of `upsert_player_season_stats`
(import_season_stats.py lines 172-178). -/
structure ImportResults where
  players_created : Nat
  players_updated : Nat
  stats_created : Nat
  stats_updated : Nat
  errors : Nat
  deriving Repr, DecidableEq

/-- The database tables and counters threaded through the importer's
per-player loop. -/
structure ImportState where
  players : List PlayerRow
  seasonStats : List PlayerSeasonStatsRow
  results : ImportResults
  deriving Repr

/-- Upsert of a `Player` row keyed by `mlbId`
(import_season_stats.py lines 185-196): on conflict the name and team are
updated in place and the existing internal id is returned, otherwise a
row with a fresh internal id (drawn from `freshId`) is inserted. -/
def upsertPlayerTable (freshId : String → String) (tbl : List PlayerRow)
    (p : PlayerData) : List PlayerRow × String :=
  match tbl.find? (fun r => r.mlbId == p.mlbId) with
  | some r =>
    (tbl.map (fun q =>
      if q.mlbId == p.mlbId then
        { q with name := p.name, teamAbbr := p.teamAbbr } else q), r.id)
  | none =>
    let pid := freshId p.mlbId
    (tbl ++ [{ id := pid, mlbId := p.mlbId, name := p.name,
               teamAbbr := p.teamAbbr }], pid)

/-- Upsert of a `PlayerSeasonStats` row keyed by (playerId, seasonYear)
(import_season_stats.py lines 206-215). -/
def upsertSeasonStatsTable (tbl : List PlayerSeasonStatsRow) (pid : String)
    (p : PlayerData) : List PlayerSeasonStatsRow :=
  if tbl.any (fun r => r.playerId == pid && r.seasonYear == p.seasonYear) then
    tbl.map (fun r =>
      if r.playerId == pid && r.seasonYear == p.seasonYear then
        { r with hrsTotal := p.hrsTotal, teamAbbr := p.teamAbbr } else r)
  else tbl ++ [{ playerId := pid, seasonYear := p.seasonYear,
                 hrsTotal := p.hrsTotal, teamAbbr := p.teamAbbr }]

/-- The body of the importer's per-player loop
(import_season_stats.py lines 182-227).  The whole body sits in a
`try/except`: when any database call for this player raises (modelled by
the oracle `execFails` on the player's external id) the handler
increments `errors` and the loop continues with the next player.  On the
success path the `existing_check` re-select (lines 199-203) finds the
just-upserted row, so exactly one of `players_updated`/`players_created`
is incremented, and the season-stats upsert response carries data, so
`stats_updated` is incremented. -/
def upsertSeasonStep (execFails : String → Bool) (freshId : String → String)
    (st : ImportState) (p : PlayerData) : ImportState :=
  if execFails p.mlbId then
    { st with results := { st.results with errors := st.results.errors + 1 } }
  else
    let t := upsertPlayerTable freshId st.players p
    let stats' := upsertSeasonStatsTable st.seasonStats t.2 p
    let res :=
      if (t.1.filter (fun r => r.mlbId == p.mlbId)).length == 1 then
        { st.results with players_updated := st.results.players_updated + 1 }
      else
        { st.results with players_created := st.results.players_created + 1 }
    { players := t.1, seasonStats := stats',
      results := { res with stats_updated := res.stats_updated + 1 } }

/-- `upsert_player_season_stats` (import_season_stats.py lines 161-228):
fold the per-player loop body over the fetched player list. -/
def upsert_player_season_stats (execFails : String → Bool)
    (freshId : String → String) (playersTbl : List PlayerRow)
    (statsTbl : List PlayerSeasonStatsRow) (players_data : List PlayerData) :
    ImportState :=
  players_data.foldl (upsertSeasonStep execFails freshId)
    { players := playersTbl, seasonStats := statsTbl,
      results := ⟨0, 0, 0, 0, 0⟩ }

/-- First on `some`, second otherwise — the shape of a first-wins lookup
across successive dictionary updates. -/
def optOr (o o' : Option PlayerData) : Option PlayerData :=
  match o with
  | some v => some v
  | none => o'

/-- The stored external-identifier forms that the roster scan of
update_stats.py lines 195-204 silently drops: nonempty, not
`mlb-`-prefixed, and not all digits (such entries hit the bare
`continue`). -/
def badMlbIdForm (s : String) : Bool :=
  !s.data.isEmpty && !(charsStartWithMlb s.data) && !(pyIsDigit s)

/-! Concrete scenario inputs used by the claim theorems. -/

/-- C1 scenario: eligible player X, external id `656941`. -/
def c1PlayerX : PlayerRow := ⟨"uuid-x", "656941", "Player X", "NYA"⟩

/-- C1 scenario: player X's stored row before 2025-06-01, cumulative 15. -/
def c1PriorRow : PlayerStatsRow := ⟨"uuid-x", 2025, "2025-05-31", 1, 15, 15, 0⟩

/-- C2 scenario: eligible player Y, external id `777001`. -/
def c2Player : PlayerRow := ⟨"uuid-y", "777001", "Player Y", "SEA"⟩

/-- C2 scenario: the table state a first run for 2025-06-01 would leave
behind had it stored player Y's 2 home runs of that day (written through
the gateway upsert itself). -/
def c2FirstRun : List PlayerStatsRow × Bool :=
  upsert_player_stats true [] "uuid-y" 2025 "2025-06-01" 2 2 2 0

/-- C3 scenario: eligible player Z, external id `888001`. -/
def c3Player : PlayerRow := ⟨"uuid-z", "888001", "Player Z", "BOS"⟩

/-- C3 scenario: a stored row at the later date 2025-06-02. -/
def c3LaterRow : PlayerStatsRow := ⟨"uuid-z", 2025, "2025-06-02", 3, 3, 3, 0⟩

/-- C4 scenario: two eligible players, both homering on the day. -/
def c4PlayerA : PlayerRow := ⟨"uuid-a4", "100", "Player A", "CHC"⟩

def c4PlayerB : PlayerRow := ⟨"uuid-b4", "200", "Player B", "CHC"⟩

/-- C5 scenario: an eligible player while the database is unreachable. -/
def c5Player : PlayerRow := ⟨"uuid-e5", "656941", "Player E", "NYM"⟩

/-- C6 scenario: a leaderboard entry with a numeric id and value. -/
def c6Entry (pid : Nat) (v : Int) : LeaderEntry :=
  { value := v, personId := toString pid, personName := "P" ++ toString pid,
    teamAbbr := "T" }

/-- C6 scenario page 1: 100 entries, values 121 down to 22 (page minimum
22, at or above the threshold 20). -/
def c6Page1 : LeadersPage :=
  ⟨some [some ((List.range 100).map (fun i => c6Entry (i + 1) (121 - i)))]⟩

/-- C6 scenario page 2: 100 entries with minimum value 18 (below the
threshold 20); entries `200` and `201` still have 20. -/
def c6Page2 : LeadersPage :=
  ⟨some [some ((List.range 100).map (fun i =>
    c6Entry (200 + i) (if i < 2 then 20 else if i < 50 then 19 else 18)))]⟩

/-- C6 scenario page 3: a page the importer must never fetch. -/
def c6Page3 : LeadersPage := ⟨some [some [c6Entry 999 50]]⟩

def c6Pages : List LeadersPage := [c6Page1, c6Page2, c6Page3]

/-- C6 scenario: a page with fewer entries than the page size, all above
threshold — the loop stops by exhaustion, not by threshold. -/
def c6ShortPage : LeadersPage :=
  ⟨some [some [c6Entry 300 25, c6Entry 301 24, c6Entry 302 23]]⟩

/-- C7 scenario entry constructor. -/
def c7Entry (pid : Nat) (v : Int) : LeaderEntry := ⟨v, toString pid, "N", "T"⟩

/-- C7 scenario: one page repeating external id `5` with values 40 and
then 45. -/
def c7Page : LeadersPage := ⟨some [some [c7Entry 5 40, c7Entry 7 30, c7Entry 5 45]]⟩

/-- C9 scenario: a roster entry storing the bare numeric form. -/
def c9Bare : PlayerRow := ⟨"uuid-a9", "656941", "Player A9", "SD"⟩

/-- C9 scenario: a roster entry storing the prefixed form. -/
def c9Pref : PlayerRow := ⟨"uuid-b9", "mlb-656941", "Player B9", "SD"⟩

/-- C10 scenario: a roster entry whose external id is nonempty, not
`mlb-`-prefixed and not all digits. -/
def c10Player : PlayerRow := ⟨"uuid-c10", "x123", "Player C10", "LAD"⟩

/-! Helper lemmas. -/

theorem mem_insertByHrs (a x : PlayerData) (l : List PlayerData) :
    a ∈ insertByHrs x l ↔ a = x ∨ a ∈ l := by
  induction l with
  | nil => simp [insertByHrs]
  | cons y ys ih =>
    by_cases h : y.hrsTotal < x.hrsTotal
    · simp [insertByHrs, h]
    · simp [insertByHrs, h, ih]
      tauto

theorem mem_sortFold (a : PlayerData) (l : List PlayerData) :
    ∀ acc : List PlayerData,
      (a ∈ l.foldl (fun acc x => insertByHrs x acc) acc) ↔ (a ∈ acc ∨ a ∈ l) := by
  induction l with
  | nil => intro acc; simp
  | cons x xs ih =>
    intro acc
    rw [List.foldl_cons, ih, mem_insertByHrs]
    simp
    tauto

theorem mem_sortByHrsDesc (a : PlayerData) (l : List PlayerData) :
    a ∈ sortByHrsDesc l ↔ a ∈ l := by
  unfold sortByHrsDesc
  rw [mem_sortFold]
  simp

theorem optOr_assoc (a b c : Option PlayerData) :
    optOr (optOr a b) c = optOr a (optOr b c) := by
  cases a <;> rfl

theorem optOr_none_right (a : Option PlayerData) : optOr a none = a := by
  cases a <;> rfl

theorem lookup_append (l₁ l₂ : List (String × PlayerData)) (k : String) :
    (l₁ ++ l₂).lookup k = optOr (l₁.lookup k) (l₂.lookup k) := by
  induction l₁ with
  | nil => rfl
  | cons h t ih =>
    obtain ⟨a, b⟩ := h
    cases hk : k == a <;> simp [List.lookup, hk, ih, optOr]

theorem lookup_processEntry (y : Int) (st : PageScan) (e : LeaderEntry)
    (pid : String) :
    (processEntry y st e).acc.lookup pid =
      optOr (st.acc.lookup pid)
        (if e.personId == "" then none
         else if e.personId == pid then some (entryToPlayerData y e)
         else none) := by
  unfold processEntry
  by_cases h0 : e.personId == ""
  · simp [h0, optOr_none_right]
  · simp only [h0, Bool.false_eq_true, if_false, ite_false]
    cases h1 : (st.acc.lookup e.personId).isSome
    · simp only [h1, Bool.false_eq_true, if_false, ite_false]
      rw [lookup_append]
      by_cases h2 : e.personId == pid
      · have hpe : e.personId = pid := by simpa using h2
        subst hpe
        have : st.acc.lookup e.personId = none := by
          cases hc : st.acc.lookup e.personId
          · rfl
          · rw [hc] at h1; simp at h1
        simp [this, h2, List.lookup, optOr]
      · have hne : ¬(pid == e.personId) := by
          intro hc
          exact h2 (by simpa using (beq_iff_eq.mp hc).symm)
        simp only [Bool.not_eq_true] at hne
        simp [h2, List.lookup, hne, optOr_none_right]
    · simp only [h1, if_true, ite_true]
      by_cases h2 : e.personId == pid
      · have hpe : e.personId = pid := by simpa using h2
        subst hpe
        obtain ⟨v, hv⟩ := Option.isSome_iff_exists.mp h1
        simp [h2, hv, optOr]
      · simp [h2, optOr_none_right]

theorem lookup_processLeaders (y : Int) (es : List LeaderEntry) :
    ∀ (st : PageScan) (pid : String),
    (processLeaders y st es).acc.lookup pid =
      optOr (st.acc.lookup pid)
        (((es.filter (fun e => !(e.personId == ""))).find?
            (fun e => e.personId == pid)).map (entryToPlayerData y)) := by
  induction es with
  | nil =>
    intro st pid
    simp [processLeaders, optOr_none_right]
  | cons e es ih =>
    intro st pid
    have step : processLeaders y st (e :: es)
        = processLeaders y (processEntry y st e) es := rfl
    rw [step, ih, lookup_processEntry, optOr_assoc]
    congr 1
    by_cases h0 : e.personId == ""
    · simp [List.filter_cons, h0, optOr]
    · by_cases h2 : e.personId == pid
      · simp [List.filter_cons, h0, List.find?, h2, optOr]
      · simp [List.filter_cons, h0, List.find?, h2, optOr]

theorem processDaily_empty_map (conn : Bool) (y : Int) (d : String)
    (l : List (Int × Int)) :
    ∀ (db : List PlayerStatsRow) (c : Counts),
    processDaily conn [] y d l db c
      = .ok (db, ⟨c.updated, c.created, c.skipped + l.length⟩) := by
  induction l with
  | nil => intro db c; rfl
  | cons h t ih =>
    obtain ⟨a, b⟩ := h
    intro db c
    show processDaily conn [] y d (t) db { c with skipped := c.skipped + 1 } = _
    rw [ih]
    simp
    omega

theorem upsertSeasonStep_errors (f : String → Bool) (g : String → String)
    (st : ImportState) (p : PlayerData) :
    (upsertSeasonStep f g st p).results.errors
      = st.results.errors + (if f p.mlbId then 1 else 0) := by
  unfold upsertSeasonStep
  cases hf : f p.mlbId
  · simp only [hf, Bool.false_eq_true, if_false, ite_false]
    split <;> rfl
  · simp [hf]

theorem upsertSeasonStep_processed (f : String → Bool) (g : String → String)
    (st : ImportState) (p : PlayerData) :
    (upsertSeasonStep f g st p).results.players_updated
      + (upsertSeasonStep f g st p).results.players_created
      = st.results.players_updated + st.results.players_created
        + (if f p.mlbId then 0 else 1) := by
  unfold upsertSeasonStep
  cases hf : f p.mlbId
  · simp only [hf, Bool.false_eq_true, if_false, ite_false]
    split <;> simp <;> omega
  · simp [hf]

theorem importLoop_errors (f : String → Bool) (g : String → String)
    (ps : List PlayerData) :
    ∀ st : ImportState,
    ((ps.foldl (upsertSeasonStep f g) st).results.errors)
      = st.results.errors + (ps.filter (fun p => f p.mlbId)).length := by
  induction ps with
  | nil => intro st; simp
  | cons p ps ih =>
    intro st
    rw [List.foldl_cons, ih, upsertSeasonStep_errors]
    cases hf : f p.mlbId <;> (simp [List.filter_cons, hf]; try omega)

theorem importLoop_processed (f : String → Bool) (g : String → String)
    (ps : List PlayerData) :
    ∀ st : ImportState,
    ((ps.foldl (upsertSeasonStep f g) st).results.players_updated)
      + ((ps.foldl (upsertSeasonStep f g) st).results.players_created)
      = st.results.players_updated + st.results.players_created
        + (ps.filter (fun p => !(f p.mlbId))).length := by
  induction ps with
  | nil => intro st; simp
  | cons p ps ih =>
    intro st
    rw [List.foldl_cons, ih, upsertSeasonStep_processed]
    cases hf : f p.mlbId <;> (simp [List.filter_cons, hf]; try omega)

theorem mlbIdKey_badForm (s : String) (h : badMlbIdForm s = true) :
    mlbIdKey s = .ok none := by
  unfold badMlbIdForm at h
  simp only [Bool.and_eq_true, Bool.not_eq_true'] at h
  obtain ⟨⟨h1, h2⟩, h3⟩ := h
  unfold mlbIdKey
  simp [h1, h2, h3]

theorem addPlayerToMap_badForm (acc : Except PyErr (List (Int × PlayerRow)))
    (p : PlayerRow) (h : badMlbIdForm p.mlbId = true) :
    addPlayerToMap acc p = acc := by
  unfold addPlayerToMap
  cases acc
  · rfl
  · rw [mlbIdKey_badForm _ h]

theorem buildMap_filter_badForm (players : List PlayerRow) :
    ∀ acc : Except PyErr (List (Int × PlayerRow)),
    players.foldl addPlayerToMap acc
      = (players.filter (fun p => !(badMlbIdForm p.mlbId))).foldl
          addPlayerToMap acc := by
  induction players with
  | nil => intro acc; rfl
  | cons p ps ih =>
    intro acc
    rw [List.filter_cons]
    cases hb : badMlbIdForm p.mlbId
    · simp only [hb, Bool.not_false, if_true, ite_true]
      rw [List.foldl_cons, List.foldl_cons, ih]
    · simp only [hb, Bool.not_true, Bool.false_eq_true, if_false, ite_false]
      rw [List.foldl_cons, addPlayerToMap_badForm acc p hb, ih]

/-! Claim theorems. -/

/-- C1: the claim says that for an eligible player with prior cumulative
total 15 and 2 home runs on 2025-06-01, `update_player_stats_for_date`
stores a dated row with cumulative total 17 and classifies the player as
updated.  The code cannot do this: the call at update_stats.py
lines 234-241 omits the required `hrs_daily` parameter of
`SupabaseDB.upsert_player_stats` (db_utils.py line 105), so Python raises
`TypeError` at the call; nothing is stored and no count is classified.
The theorem exhibits the missing binding, the prior total 15 the code
reads just before the call, and the `TypeError` outcome of the run on the
claim's own scenario. -/
theorem c1_upsert_call_missing_hrs_daily_aborts :
    upsertCallMissingParams = ["hrs_daily"]
    ∧ get_player_season_total true [c1PriorRow] "uuid-x" 2025 = 15
    ∧ update_player_stats_for_date true [c1PlayerX] [c1PriorRow] 2025
        "2025-06-01" [(656941, 2)] = .error PyErr.typeError :=
  ⟨rfl, rfl, rfl⟩

/-- C2: the claim says a second run for the same date recomputes each
cumulative total from the record prior to that date.  It does not:
`get_player_season_total` selects the most recent row with no date
cutoff, so on a re-run for 2025-06-01 it returns the 2025-06-01 row
itself — the very row being overwritten (a prior-date read would give 0
here), so the daily delta would be added on top of itself; and the re-run
in fact aborts with `TypeError` at the argument-binding of the upsert
call before storing anything. -/
theorem c2_rerun_reads_overwritten_row_not_prior_date :
    c2FirstRun = ([⟨"uuid-y", 2025, "2025-06-01", 2, 2, 2, 0⟩], true)
    ∧ get_player_season_total true c2FirstRun.1 "uuid-y" 2025 = 2
    ∧ update_player_stats_for_date true [c2Player] c2FirstRun.1 2025
        "2025-06-01" [(777001, 2)] = .error PyErr.typeError :=
  ⟨rfl, rfl, rfl⟩

/-- C3: the claim says any sequence of Daily Aggregator runs leaves each
player's stored `hrs_total` non-decreasing across dates.  No run ever
stores a row: processing any player with a nonzero daily total raises
`TypeError` at the upsert call (first conjunct), so the monotone time
series the claim describes is never produced.  Moreover the prior-total
read has no date cutoff (second conjunct: a 2025-06-01 run would read the
2025-06-02 row's total 3), so even with the call repaired, out-of-order
date runs would store a decreasing series. -/
theorem c3_aggregator_never_stores_a_series :
    update_player_stats_for_date true [c3Player] [] 2025 "2025-06-01"
      [(888001, 2)] = .error PyErr.typeError
    ∧ get_player_season_total true [c3LaterRow] "uuid-z" 2025 = 3 :=
  ⟨rfl, rfl⟩

/-- C4: the claim says both batch jobs catch a per-player upsert failure,
count it and continue.  The Eligibility Importer does: for every failure
oracle and player list, its loop yields `errors` equal to the number of
failing players and processes every non-failing player (first conjunct,
counts add up over the whole list — no abort).  The Daily Aggregator does
not: with two eligible players who homered, the first player's upsert
call raises `TypeError` (missing `hrs_daily` binding) outside the
callee's `try/except`, aborting the whole batch before the second player
is processed (second conjunct). -/
theorem c4_importer_counts_and_continues_but_aggregator_aborts :
    (∀ (execFails : String → Bool) (freshId : String → String)
        (playersTbl : List PlayerRow) (statsTbl : List PlayerSeasonStatsRow)
        (ps : List PlayerData),
      (upsert_player_season_stats execFails freshId playersTbl statsTbl
          ps).results.errors
        = (ps.filter (fun p => execFails p.mlbId)).length
      ∧ (upsert_player_season_stats execFails freshId playersTbl statsTbl
            ps).results.players_updated
          + (upsert_player_season_stats execFails freshId playersTbl statsTbl
              ps).results.players_created
        = (ps.filter (fun p => !(execFails p.mlbId))).length)
    ∧ update_player_stats_for_date true [c4PlayerA, c4PlayerB] [] 2025
        "2025-06-01" [(100, 1), (200, 1)] = .error PyErr.typeError := by
  constructor
  · intro f g tbl stats ps
    constructor
    · unfold upsert_player_season_stats
      rw [importLoop_errors]
      simp
    · unfold upsert_player_season_stats
      rw [importLoop_processed]
      simp
  · rfl

/-- C5 counterexample: the claim says a Daily Aggregator run with an
unreachable database aborts with a nonzero exit code.  At the concrete
input below (database down, one eligible player with one home run) the
run instead completes — each gateway call swallows the error and returns
its default — and the process exits 0. -/
theorem c5_db_unreachable_still_exits_zero :
    update_player_stats_for_date false [c5Player] [] 2025 "2025-06-01"
      [(656941, 1)] = .ok ([], ⟨0, 0, 1⟩)
    ∧ mainExitCode (updaterRun false [c5Player] [] 2025 "2025-06-01"
        [(656941, 1)]) = 0 :=
  ⟨rfl, rfl⟩

/-- C5 amended: when the database is unreachable, every gateway call
catches the connectivity error and returns its default (empty roster,
zero total, unsuccessful upsert); the Daily Aggregator run does not
abort — it counts every home-run hitter of the day as skipped, leaves the
stats table untouched, and the process exits 0. -/
theorem c5_db_unreachable_defaults_skip_all_exit_zero :
    ∀ (players : List PlayerRow) (statsDb : List PlayerStatsRow)
      (seasonYear : Int) (dateStr : String) (daily_hrs : List (Int × Int)),
    update_player_stats_for_date false players statsDb seasonYear dateStr
        daily_hrs = .ok (statsDb, ⟨0, 0, daily_hrs.length⟩)
    ∧ mainExitCode (updaterRun false players statsDb seasonYear dateStr
        daily_hrs) = 0 := by
  intro players db y d l
  have h1 : update_player_stats_for_date false players db y d l
      = .ok (db, ⟨0, 0, l.length⟩) := by
    cases l with
    | nil => rfl
    | cons a as =>
      show processDaily false [] y d (a :: as) db ⟨0, 0, 0⟩ = _
      rw [processDaily_empty_map]
      simp
  refine ⟨h1, ?_⟩
  unfold updaterRun
  rw [h1]
  rfl

set_option maxRecDepth 400000 in
/-- C6: pagination termination.  With threshold 20: page 1 has 100
entries and page minimum 22, so page 2 is fetched; page 2's minimum is
18, so the loop stops after page 2 — the final offset is 100, i.e. only
offsets 0 and 100 were requested, and page 3's entry `999` is absent from
the result.  Page-2 entries below 20 are discarded while its two
20-home-run entries survive: the returned list is exactly the 100 page-1
players followed by `200` and `201`.  The other stopping rule is also
exhibited: a page with only 3 entries (fewer than the page size), all
above threshold, stops the loop at offset 0 without touching the next
page. -/
theorem c6_pagination_stops_after_page_two_scenario :
    (fetchLoop 20 2025 c6Pages [] 0).2 = 100
    ∧ (fetch_season_leaders_paginated 2025 20 c6Pages).map (fun p => p.mlbId)
        = (List.range 100).map (fun i => toString (i + 1)) ++ ["200", "201"]
    ∧ (fetchLoop 20 2025 [c6ShortPage, c6Page3] [] 0).2 = 0
    ∧ ((fetchLoop 20 2025 [c6ShortPage, c6Page3] [] 0).1.lookup "999") = none :=
  ⟨rfl, rfl, rfl, rfl⟩

/-- C7: first occurrence wins.  Generally, after scanning any entry list
from any starting state, the value stored under an identifier is the
already-stored one if present, and otherwise comes from the first scanned
entry bearing that identifier — never a sum across duplicates.
Concretely, a page listing id `5` with value 40 and later again with 45
yields 40 for id `5` (not 45, not 85). -/
theorem c7_dedup_first_occurrence_wins :
    (∀ (y : Int) (es : List LeaderEntry) (st : PageScan) (pid : String),
      (processLeaders y st es).acc.lookup pid =
        optOr (st.acc.lookup pid)
          (((es.filter (fun e => !(e.personId == ""))).find?
              (fun e => e.personId == pid)).map (entryToPlayerData y)))
    ∧ (fetch_season_leaders_paginated 2025 10 [c7Page]).map
        (fun p => (p.mlbId, p.hrsTotal)) = [("5", 40), ("7", 30)] :=
  ⟨fun y es st pid => lookup_processLeaders y es st pid, rfl⟩

/-- C8: threshold filter.  Every player in the list returned by
`fetch_season_leaders_paginated` has a home-run total at least the
minimum-home-runs threshold; equivalently, no player below the threshold
appears in the returned list. -/
theorem c8_threshold_filter_sound (seasonYear minHrs : Int)
    (pages : List LeadersPage) :
    (fetch_season_leaders_paginated seasonYear minHrs pages).all
      (fun p => decide (minHrs ≤ p.hrsTotal)) = true := by
  unfold fetch_season_leaders_paginated
  rw [List.all_eq_true]
  intro p hp
  rw [mem_sortByHrsDesc] at hp
  exact (List.mem_filter.mp hp).2

/-- C9: identifier normalization.  The bare form `"656941"` and the
prefixed form `"mlb-656941"` both normalize to the numeric lookup key
`656941`; a roster entry stored in either form lands in the lookup under
that same key, where a box-score player id `656941` finds it. -/
theorem c9_mlb_id_forms_normalize_to_same_key :
    mlbIdKey "656941" = .ok (some 656941)
    ∧ mlbIdKey "mlb-656941" = .ok (some 656941)
    ∧ buildMlbIdMap [c9Bare] = .ok [(656941, c9Bare)]
    ∧ buildMlbIdMap [c9Pref] = .ok [(656941, c9Pref)]
    ∧ ([(656941, c9Bare)] : List (Int × PlayerRow)).lookup 656941 = some c9Bare
    ∧ ([(656941, c9Pref)] : List (Int × PlayerRow)).lookup 656941 = some c9Pref :=
  ⟨rfl, rfl, rfl, rfl, rfl, rfl⟩

/-- C10: a roster entry whose external identifier is nonempty, not
`mlb-`-prefixed and not all digits contributes nothing to the
external-id lookup (removing all such entries leaves the constructed map
unchanged, for every roster); consequently such a player's home runs
yield no stored row and are counted as skipped, as the concrete run with
id `"x123"` and one home run shows: no write, counts `(0, 0, 1)`. -/
theorem c10_bad_form_ids_excluded_and_skipped :
    (∀ players : List PlayerRow,
      buildMlbIdMap players
        = buildMlbIdMap (players.filter (fun p => !(badMlbIdForm p.mlbId))))
    ∧ buildMlbIdMap [c10Player] = .ok []
    ∧ update_player_stats_for_date true [c10Player] [] 2025 "2025-06-01"
        [(123, 1)] = .ok ([], ⟨0, 0, 1⟩) := by
  refine ⟨?_, rfl, rfl⟩
  intro players
  unfold buildMlbIdMap
  exact buildMap_filter_badForm players _
